import Mathlib

/-!
Shallow embedding of the WebSocket subscription and event-dispatch layer of
the `bybit-rs` client (`src/ws.rs`), together with theorems settling the
specification claims about it.

Conventions of the embedding:
* Types from `crate::model` / `crate::api` (`Category`, `Subscription`,
  `WebsocketEvents`, `PongResponse`, `WebsocketAPI`, `Public`) are not under
  `src/`; they are reconstructed from their use in `ws.rs` and the spec.
  Event payloads are abstracted to their printable rendering (`String`),
  since `ws.rs` only ever pattern-matches the variant and pretty-prints the
  payload.
* `generate_random_uid` (external randomness) is passed in as a `uid`
  argument; `serde_json` parsing and classification are external capabilities
  and are passed in as function arguments (`parse`, `classify`, `parsePong`).
* A call to `Client::wss_connect` is represented by the `ConnectCall` value
  describing its arguments; an operation that fails before connecting
  returns `Except.error` without producing any `ConnectCall`.
* `println!` output is modelled as an accumulated list of printed lines.
-/

namespace Bybit

/-- Trading category (`crate::model::Category`), used by `ws.rs` to select
endpoints and format topics. -/
inductive Category where
  | linear
  | inverse
  | spot
  | option
deriving DecidableEq, Repr

/-- Public endpoint selector (`crate::api::Public`). -/
inductive PublicApi where
  | linear
  | inverse
  | spot
deriving DecidableEq, Repr

/-- Endpoint selector (`crate::api::WebsocketAPI`): a category-specific
public endpoint or the single private endpoint. -/
inductive WebsocketAPI where
  | publicApi (p : PublicApi)
  | privateApi
deriving DecidableEq, Repr

/-- A subscription control message before serialization
(`crate::model::Subscription`): an operation name and a list of topic
strings (`Subscription::new(op, args)`). -/
structure Subscription where
  op : String
  args : List String
deriving DecidableEq, Repr

/-- Order book payload (`OrderBookUpdate`); the data is abstracted to its
printable rendering. -/
structure OrderBookUpdate where
  data : String
deriving DecidableEq, Repr

/-- Trade payload: a list of trades, each abstracted to its rendering. -/
structure TradeUpdate where
  data : List String
deriving DecidableEq, Repr

/-- Ticker payload variants (`crate::model::Tickers`): linear or spot. -/
inductive Tickers where
  | linear (t : String)
  | spot (t : String)
deriving DecidableEq, Repr

/-- Ticker event payload. -/
structure TickerUpdate where
  data : Tickers
deriving DecidableEq, Repr

/-- Kline payload: a list of candles, each abstracted to its rendering. -/
structure KlineUpdate where
  data : List String
deriving DecidableEq, Repr

/-- Position payload. -/
structure PositionUpdate where
  data : List String
deriving DecidableEq, Repr

/-- Execution payload. -/
structure ExecutionUpdate where
  data : List String
deriving DecidableEq, Repr

/-- Order payload. -/
structure OrderUpdate where
  data : List String
deriving DecidableEq, Repr

/-- Wallet payload. -/
structure WalletUpdate where
  data : List String
deriving DecidableEq, Repr

/-- The closed set of classified inbound events
(`crate::model::WebsocketEvents`), exactly the variants `ws.rs`
pattern-matches on. -/
inductive WebsocketEvents where
  | orderBookEvent (e : OrderBookUpdate)
  | tradeEvent (e : TradeUpdate)
  | tickerEvent (e : TickerUpdate)
  | klineEvent (e : KlineUpdate)
  | positionEvent (e : PositionUpdate)
  | executionEvent (e : ExecutionUpdate)
  | orderEvent (e : OrderUpdate)
  | wallet (e : WalletUpdate)
deriving DecidableEq, Repr

/-- Pong response (`crate::model::PongResponse`): public or private pong,
each carrying the connection identifier `conn_id`. -/
inductive PongResponse where
  | publicPong (conn_id : String)
  | privatePong (conn_id : String)
deriving DecidableEq, Repr

/-- An outbound request as an ordered key-value structure: the `BTreeMap`
built by `ws_ping` / `build_subscription` before `build_json_request`
serializes it.  The bare ping request inserts no `args` key, hence
`args : Option (List String)`. -/
structure OutboundRequest where
  req_id : String
  op : String
  args : Option (List String)
deriving DecidableEq, Repr

/-- Rust `str::to_uppercase`, modelled on ASCII characters (symbols are
ASCII tickers). -/
def rustToUppercase (s : String) : String :=
  ⟨s.data.map Char.toUpper⟩

/-- The bare ping request built by `ws_ping` (lines 21-24): `req_id` and
`op = "ping"` only, no `args` key. -/
def pingRequest (uid : String) : OutboundRequest :=
  { req_id := uid, op := "ping", args := none }

/-- `Stream::build_subscription` (lines 93-106): pairs a fresh request id
with the subscription's operation and its topic strings (the
`map(ToString::to_string)` over `&str` args is the identity). -/
def build_subscription (uid : String) (action : Subscription) : OutboundRequest :=
  { req_id := uid, op := action.op, args := some action.args }

/-- A call to the external connection provider `Client::wss_connect`:
its endpoint selector, optional initial request, privacy flag and optional
read timeout (seconds). -/
structure ConnectCall where
  endpoint : WebsocketAPI
  request : Option OutboundRequest
  isPrivate : Bool
  readTimeout : Option Nat
deriving DecidableEq, Repr

/-- Endpoint selection of `Stream::ws_subscribe` (lines 77-84): Linear,
Inverse and Spot map to their public endpoints; Option bails with
`"Option has not been implemented"` before anything else happens. -/
def ws_subscribe_endpoint : Category → Except String WebsocketAPI
  | .linear => .ok (.publicApi .linear)
  | .inverse => .ok (.publicApi .inverse)
  | .spot => .ok (.publicApi .spot)
  | .option => .error "Option has not been implemented"

/-- The connection attempt made by `Stream::ws_subscribe` (lines 68-91):
on a supported category it calls `wss_connect(endpoint, Some(request),
false, None)`; on `Option` it fails before any connection attempt, so no
`ConnectCall` is produced. -/
def ws_subscribe_connect (uid : String) (req : Subscription) (cat : Category) :
    Except String ConnectCall :=
  (ws_subscribe_endpoint cat).map fun ep =>
    { endpoint := ep
      request := some (build_subscription uid req)
      isPrivate := false
      readTimeout := none }

/-- The connection attempt made by `Stream::ws_priv_subscribe`
(lines 56-66): `wss_connect(WebsocketAPI::Private, Some(request), true,
Some(9))`. -/
def ws_priv_subscribe_connect (uid : String) (req : Subscription) : ConnectCall :=
  { endpoint := .privateApi
    request := some (build_subscription uid req)
    isPrivate := true
    readTimeout := some 9 }

/-- The connection attempt made by `Stream::ws_ping` (lines 20-35):
the private endpoint when `private`, otherwise `Public(Linear)`; the bare
ping request; and `None` as the read timeout. -/
def ws_ping_connect (uid : String) (priv : Bool) : ConnectCall :=
  { endpoint := if priv then .privateApi else .publicApi .linear
    request := some (pingRequest uid)
    isPrivate := priv
    readTimeout := none }

/-! ### Subscription facade: topic construction and connection attempts -/

/-- Topic built by `Stream::ws_orderbook` (line 124):
`format!("orderbook.{}.{}", num, sym.to_uppercase())`. -/
def orderbookTopic (num : Int) (sym : String) : String :=
  "orderbook." ++ toString num ++ "." ++ rustToUppercase sym

/-- Topic built by `Stream::ws_trades` (line 152):
`format!("publicTrade.{}", sub.to_uppercase())`. -/
def tradesTopic (sym : String) : String :=
  "publicTrade." ++ rustToUppercase sym

/-- Topic built by `Stream::ws_tickers` (line 185):
`format!("tickers.{}", sub.to_uppercase())`. -/
def tickersTopic (sym : String) : String :=
  "tickers." ++ rustToUppercase sym

/-- Topic built by `Stream::ws_klines` (line 205):
`format!("kline.{}.{}", interval, sym.to_uppercase())`. -/
def klinesTopic (interval : String) (sym : String) : String :=
  "kline." ++ interval ++ "." ++ rustToUppercase sym

/-- The `Subscription` built by `Stream::ws_orderbook` (lines 122-126). -/
def ws_orderbook_subscription (subs : List (Int × String)) : Subscription :=
  { op := "subscribe", args := subs.map fun p => orderbookTopic p.1 p.2 }

/-- The `Subscription` built by `Stream::ws_trades` (lines 150-154). -/
def ws_trades_subscription (subs : List String) : Subscription :=
  { op := "subscribe", args := subs.map tradesTopic }

/-- The `Subscription` built by `Stream::ws_tickers` (lines 183-187). -/
def ws_tickers_subscription (subs : List String) : Subscription :=
  { op := "subscribe", args := subs.map tickersTopic }

/-- The `Subscription` built by `Stream::ws_klines` (lines 203-207). -/
def ws_klines_subscription (subs : List (String × String)) : Subscription :=
  { op := "subscribe", args := subs.map fun p => klinesTopic p.1 p.2 }

/-- Connection attempt of `Stream::ws_orderbook`: it delegates to
`ws_subscribe` with its subscription and the caller's category (line 127). -/
def ws_orderbook_connect (uid : String) (subs : List (Int × String)) (cat : Category) :
    Except String ConnectCall :=
  ws_subscribe_connect uid (ws_orderbook_subscription subs) cat

/-- Connection attempt of `Stream::ws_trades` (line 164). -/
def ws_trades_connect (uid : String) (subs : List String) (cat : Category) :
    Except String ConnectCall :=
  ws_subscribe_connect uid (ws_trades_subscription subs) cat

/-- Connection attempt of `Stream::ws_tickers` (line 199). -/
def ws_tickers_connect (uid : String) (subs : List String) (cat : Category) :
    Except String ConnectCall :=
  ws_subscribe_connect uid (ws_tickers_subscription subs) cat

/-- Connection attempt of `Stream::ws_klines` (line 208). -/
def ws_klines_connect (uid : String) (subs : List (String × String)) (cat : Category) :
    Except String ConnectCall :=
  ws_subscribe_connect uid (ws_klines_subscription subs) cat

/-- Topic selection of `Stream::ws_position` (lines 219-227): Linear and
Inverse map to category-specific topics, no category maps to `"position"`,
and Spot/Option bail with `"Option and Spot has not been implemented"`. -/
def ws_position_topic : Option Category → Except String String
  | some .linear => .ok "position.linear"
  | some .inverse => .ok "position.inverse"
  | some .spot => .error "Option and Spot has not been implemented"
  | some .option => .error "Option and Spot has not been implemented"
  | none => .ok "position"

/-- Topic selection of `Stream::ws_executions` (lines 241-250): all four
categories are supported, plus the categoryless default `"execution"`. -/
def ws_executions_topic : Option Category → String
  | some .linear => "execution.linear"
  | some .inverse => "execution.inverse"
  | some .spot => "execution.spot"
  | some .option => "execution.option"
  | none => "execution"

/-- Topic selection of `Stream::ws_orders` (lines 264-273): all four
categories are supported, plus the categoryless default `"order"`. -/
def ws_orders_topic : Option Category → String
  | some .linear => "order.linear"
  | some .inverse => "order.inverse"
  | some .spot => "order.spot"
  | some .option => "order.option"
  | none => "order"

/-- Connection attempt of `Stream::ws_position` (lines 218-230): on a
supported topic it delegates to `ws_priv_subscribe`; on Spot/Option it
fails before any connection attempt. -/
def ws_position_connect (uid : String) (cat : Option Category) :
    Except String ConnectCall :=
  (ws_position_topic cat).map fun t =>
    ws_priv_subscribe_connect uid { op := "subscribe", args := [t] }

/-- Connection attempt of `Stream::ws_executions` (lines 240-253). -/
def ws_executions_connect (uid : String) (cat : Option Category) : ConnectCall :=
  ws_priv_subscribe_connect uid { op := "subscribe", args := [ws_executions_topic cat] }

/-- Connection attempt of `Stream::ws_orders` (lines 263-276). -/
def ws_orders_connect (uid : String) (cat : Option Category) : ConnectCall :=
  ws_priv_subscribe_connect uid { op := "subscribe", args := [ws_orders_topic cat] }

/-- Connection attempt of `Stream::ws_wallet` (lines 286-289). -/
def ws_wallet_connect (uid : String) : ConnectCall :=
  ws_priv_subscribe_connect uid { op := "subscribe", args := ["wallet"] }

/-! ### Facade handlers

Each facade operation installs a closure that pattern-matches one
`WebsocketEvents` variant, pretty-prints its payload, and returns `Ok(())`
on every event.  The handler state is the accumulated list of printed
lines. -/

/-- Handler installed by `ws_orderbook` (lines 127-132). -/
def ws_orderbook_handler (out : List String) :
    WebsocketEvents → Except String (List String)
  | .orderBookEvent ob => .ok (out ++ [ob.data])
  | _ => .ok out

/-- Handler installed by `ws_trades` (lines 155-162). -/
def ws_trades_handler (out : List String) :
    WebsocketEvents → Except String (List String)
  | .tradeEvent t => .ok (out ++ t.data.map fun tr => "Trade: " ++ tr)
  | _ => .ok out

/-- Handler installed by `ws_tickers` (lines 189-197). -/
def ws_tickers_handler (out : List String) :
    WebsocketEvents → Except String (List String)
  | .tickerEvent t =>
    match t.data with
    | .linear lt => .ok (out ++ [lt])
    | .spot st => .ok (out ++ [st])
  | _ => .ok out

/-- Handler installed by `ws_klines` (lines 208-215). -/
def ws_klines_handler (out : List String) :
    WebsocketEvents → Except String (List String)
  | .klineEvent k => .ok (out ++ k.data)
  | _ => .ok out

/-- Handler installed by `ws_position` (lines 230-237). -/
def ws_position_handler (out : List String) :
    WebsocketEvents → Except String (List String)
  | .positionEvent p => .ok (out ++ p.data)
  | _ => .ok out

/-- Handler installed by `ws_executions` (lines 253-260). -/
def ws_executions_handler (out : List String) :
    WebsocketEvents → Except String (List String)
  | .executionEvent e => .ok (out ++ e.data)
  | _ => .ok out

/-- Handler installed by `ws_orders` (lines 276-283). -/
def ws_orders_handler (out : List String) :
    WebsocketEvents → Except String (List String)
  | .orderEvent o => .ok (out ++ o.data)
  | _ => .ok out

/-- Handler installed by `ws_wallet` (lines 289-296). -/
def ws_wallet_handler (out : List String) :
    WebsocketEvents → Except String (List String)
  | .wallet w => .ok (out ++ w.data)
  | _ => .ok out

/-! ### The event loop

`tungstenite` messages and the read-decode-classify-dispatch cycle of
`Stream::event_loop` / `Stream::handle_msg`.  The inbound frame sequence is
a finite list of read results; exhausting the list models the connection
closing (a failing `stream.read()`).  JSON parsing (`serde_json::from_str`
into `Value`) and classification (`serde_json::from_value` into
`WebsocketEvents`) are external capabilities, passed as `parse` and
`classify`; classification failure is only observed through
`if let Ok(..)`, so it is collapsed to `Option`. -/

/-- A `tungstenite::Message` as observed by `ws.rs`: a text frame, or any
non-text frame (binary/ping/pong/close-control), which both `event_loop`
and `ws_ping` match with `_ => {}`. -/
inductive WsMessage where
  | text (s : String)
  | nonText
deriving DecidableEq, Repr

/-- The error raised inside `Stream::handle_msg`: a decode failure from
`serde_json::from_str` (with serde's message), or a failure returned by the
caller's handler (with its message). -/
inductive HandleErr where
  | decodeFail (e : String)
  | handlerFail (e : String)
deriving DecidableEq, Repr

/-- Message text of a `HandleErr`, as it reaches the `format!` in
`event_loop`. -/
def HandleErr.message : HandleErr → String
  | .decodeFail e => e
  | .handlerFail e => e

/-- The error a run of `Stream::event_loop` terminates with: a transport
error from `stream.read()?`, or the `bail!("Error on handling stream
message: {}", e)` wrapping a `HandleErr`. -/
inductive WsError where
  | transport (e : String)
  | streamMsg (e : HandleErr)
deriving DecidableEq, Repr

/-- Message text of a `WsError`; the `streamMsg` case is the exact
`format!` string of line 318. -/
def WsError.message : WsError → String
  | .transport e => e
  | .streamMsg e => "Error on handling stream message: " ++ e.message

/-- Instrumented outcome of `Stream::handle_msg` on one text frame: decode
failure, frame skipped (decoded but unclassified - the handler is not
invoked), or handler invoked with the classified event (succeeding with a
new state, or failing). -/
inductive HandleResult (σ : Type) where
  | decodeFail (e : String)
  | skipped (s : σ)
  | dispatched (ev : WebsocketEvents) (s : σ)
  | handlerFail (ev : WebsocketEvents) (e : String)

section EventLoop

variable {V σ : Type}

/-- `Stream::handle_msg` (lines 299-307), instrumented with which event (if
any) the handler was invoked on: parse the text into a `Value`; on failure
propagate the decode error; if classification succeeds invoke the handler
and propagate its failure; otherwise return `Ok(())` untouched. -/
def handle_msg (parse : String → Except String V)
    (classify : V → Option WebsocketEvents)
    (h : σ → WebsocketEvents → Except String σ) (s : σ) (m : String) :
    HandleResult σ :=
  match parse m with
  | .error e => .decodeFail e
  | .ok v =>
    match classify v with
    | none => .skipped s
    | some ev =>
      match h s ev with
      | .error e => .handlerFail ev e
      | .ok s2 => .dispatched ev s2

/-- The `Result<()>` that the Rust `handle_msg` actually returns, projected
from the instrumented outcome. -/
def HandleResult.toResult : HandleResult σ → Except HandleErr Unit
  | .decodeFail e => .error (.decodeFail e)
  | .handlerFail _ e => .error (.handlerFail e)
  | .skipped _ => .ok ()
  | .dispatched _ _ => .ok ()

/-- Observable outcome of a (necessarily error-terminated, since frames are
finite) run of `Stream::event_loop`: the events the handler was invoked on
in order, the number of `stream.read()` calls made, and the terminating
error. -/
structure LoopOutcome where
  invoked : List WebsocketEvents
  consumed : Nat
  err : WsError
deriving DecidableEq, Repr

/-- `Stream::event_loop` (lines 309-324) over a finite read sequence: read
a frame (a transport failure, or the end of the sequence standing for the
connection closing, terminates the loop with a transport error); route a
text frame through `handle_msg`, turning its error into the wrapped
`streamMsg` error; skip non-text frames; repeat. -/
def event_loop (parse : String → Except String V)
    (classify : V → Option WebsocketEvents)
    (h : σ → WebsocketEvents → Except String σ) :
    List (Except String WsMessage) → σ → LoopOutcome
  | [], _ => ⟨[], 0, .transport "connection closed"⟩
  | .error e :: _, _ => ⟨[], 1, .transport e⟩
  | .ok (.text m) :: rest, s =>
    match handle_msg parse classify h s m with
    | .decodeFail e => ⟨[], 1, .streamMsg (.decodeFail e)⟩
    | .handlerFail ev e => ⟨[ev], 1, .streamMsg (.handlerFail e)⟩
    | .skipped s2 =>
      let o := event_loop parse classify h rest s2
      ⟨o.invoked, o.consumed + 1, o.err⟩
    | .dispatched ev s2 =>
      let o := event_loop parse classify h rest s2
      ⟨ev :: o.invoked, o.consumed + 1, o.err⟩
  | .ok .nonText :: rest, s =>
    let o := event_loop parse classify h rest s
    ⟨o.invoked, o.consumed + 1, o.err⟩

end EventLoop

/-! ### Ping handling -/

/-- How `Stream::ws_ping` (lines 36-53) processes the single frame it
reads, given the external `serde_json::from_str::<PongResponse>` capability
`parsePong`: a read failure propagates (`response.read()?`); a text frame
is parsed as a pong, a parse failure propagating (`from_str(&data)?`) and
either pong variant printing the success lines with the frame's
`conn_id`; a non-text frame is ignored.  Returns the printed lines. -/
def ws_ping_handle (parsePong : String → Except String PongResponse)
    (frame : Except String WsMessage) : Except String (List String) :=
  match frame with
  | .error e => .error e
  | .ok (.text s) =>
    match parsePong s with
    | .error e => .error e
    | .ok (.publicPong cid) =>
      .ok ["Pong received successfully", "Connection ID: " ++ cid]
    | .ok (.privatePong cid) =>
      .ok ["Pong received successfully", "Connection ID: " ++ cid]
  | .ok .nonText => .ok []

/-! ### Run predicates and helper lemmas for the event loop -/

/-- The event passed to the handler (if any) in a `handle_msg` outcome. -/
def HandleResult.invokedEvent {σ : Type} : HandleResult σ → Option WebsocketEvents
  | .dispatched ev _ => some ev
  | .handlerFail ev _ => some ev
  | .decodeFail _ => none
  | .skipped _ => none

/-- A list of text frames, each read successfully. -/
def textFrames (ms : List String) : List (Except String WsMessage) :=
  ms.map fun m => .ok (.text m)

section LoopLemmas

variable {V σ : Type} (parse : String → Except String V)
  (classify : V → Option WebsocketEvents)

/-- The text `m` decodes and classifies as the event `ev`: a well-formed
frame in the sense of the spec's dispatch guarantee. -/
def dispatchesAs (m : String) (ev : WebsocketEvents) : Prop :=
  ∃ v, parse m = .ok v ∧ classify v = some ev

/-- The texts `ms` decode and classify pointwise as the events `evs`. -/
def DispatchesTo : List String → List WebsocketEvents → Prop
  | [], [] => True
  | m :: ms, ev :: evs => dispatchesAs parse classify m ev ∧ DispatchesTo ms evs
  | _, _ => False

variable (h : σ → WebsocketEvents → Except String σ)

/-- The handler `h` accepts the events `evs` in order, stepping its state
from `s` to `s'` without ever failing. -/
def RunsOk : σ → List WebsocketEvents → σ → Prop
  | s, [], s' => s' = s
  | s, ev :: evs, s' => ∃ s2, h s ev = .ok s2 ∧ RunsOk s2 evs s'

theorem dispatchesTo_length {ms : List String} {evs : List WebsocketEvents}
    (hd : DispatchesTo parse classify ms evs) : evs.length = ms.length := by
  induction ms generalizing evs with
  | nil => cases evs with
    | nil => rfl
    | cons ev evs => exact absurd hd (by simp [DispatchesTo])
  | cons m ms ih => cases evs with
    | nil => exact absurd hd (by simp [DispatchesTo])
    | cons ev evs =>
      have := ih hd.2
      simp [this]

/-- Running the event loop over a prefix of well-formed text frames that
the handler accepts dispatches exactly those events in order, consumes
exactly those frames, and then behaves as the loop over the remaining
frames from the handler's final state. -/
theorem event_loop_run_prefix :
    ∀ (ms : List String) (evs : List WebsocketEvents) (s s' : σ)
      (rest : List (Except String WsMessage)),
      DispatchesTo parse classify ms evs →
      RunsOk h s evs s' →
      event_loop parse classify h (textFrames ms ++ rest) s =
        ⟨evs ++ (event_loop parse classify h rest s').invoked,
         ms.length + (event_loop parse classify h rest s').consumed,
         (event_loop parse classify h rest s').err⟩ := by
  intro ms
  induction ms with
  | nil =>
    intro evs s s' rest hd hr
    cases evs with
    | nil =>
      simp only [RunsOk] at hr
      subst hr
      simp [textFrames]
    | cons ev evs => exact absurd hd (by simp [DispatchesTo])
  | cons m ms ih =>
    intro evs s s' rest hd hr
    cases evs with
    | nil => exact absurd hd (by simp [DispatchesTo])
    | cons ev evs =>
      obtain ⟨⟨v, hv, hc⟩, hd2⟩ := hd
      obtain ⟨s2, hh, hr2⟩ := hr
      have hrec := ih evs s2 s' rest hd2 hr2
      simp only [textFrames, List.map_cons, List.cons_append, event_loop,
        handle_msg, hv, hc, hh]
      simp only [List.append_eq]
      rw [show (List.map (fun m => Except.ok (WsMessage.text m)) ms : List (Except String WsMessage)) = textFrames ms from rfl]
      rw [hrec]
      simp only [LoopOutcome.mk.injEq, List.cons_append, List.length_cons]
      exact ⟨trivial, by omega, trivial⟩

/-- If the handler never fails, no run of the event loop can terminate
with a wrapped handler failure. -/
theorem event_loop_no_handlerFail
    (hok : ∀ s ev, ∃ s2, h s ev = .ok s2) :
    ∀ (frames : List (Except String WsMessage)) (s : σ) (msg : String),
      (event_loop parse classify h frames s).err ≠ .streamMsg (.handlerFail msg) := by
  intro frames
  induction frames with
  | nil => intro s msg; simp [event_loop]
  | cons f rest ih =>
    intro s msg
    match f with
    | .error e => simp [event_loop]
    | .ok .nonText => simpa [event_loop] using ih s msg
    | .ok (.text m) =>
      simp only [event_loop]
      cases hp : parse m with
      | error e => simp [handle_msg, hp]
      | ok v =>
        cases hc : classify v with
        | none => simpa [handle_msg, hp, hc] using ih s msg
        | some ev =>
          obtain ⟨s2, hh⟩ := hok s ev
          simpa [handle_msg, hp, hc, hh] using ih s2 msg

end LoopLemmas

/-! ### Claim theorems -/

/-- C1: every public-stream facade operation (`ws_orderbook`, `ws_trades`,
`ws_tickers`, `ws_klines`) goes through `ws_subscribe`; with `Category::Option`
the call returns the configuration error before any connection attempt (the
result is `Except.error`, so no `ConnectCall` is produced); with Linear,
Inverse and Spot it connects to the matching public endpoint. -/
theorem claim_C1 :
    (∀ uid subs cat, ws_orderbook_connect uid subs cat
        = ws_subscribe_connect uid (ws_orderbook_subscription subs) cat)
    ∧ (∀ uid subs cat, ws_trades_connect uid subs cat
        = ws_subscribe_connect uid (ws_trades_subscription subs) cat)
    ∧ (∀ uid subs cat, ws_tickers_connect uid subs cat
        = ws_subscribe_connect uid (ws_tickers_subscription subs) cat)
    ∧ (∀ uid subs cat, ws_klines_connect uid subs cat
        = ws_subscribe_connect uid (ws_klines_subscription subs) cat)
    ∧ (∀ uid req, ws_subscribe_connect uid req .option
        = .error "Option has not been implemented")
    ∧ (∀ uid req, ws_subscribe_connect uid req .linear
        = .ok ⟨.publicApi .linear, some (build_subscription uid req), false, none⟩)
    ∧ (∀ uid req, ws_subscribe_connect uid req .inverse
        = .ok ⟨.publicApi .inverse, some (build_subscription uid req), false, none⟩)
    ∧ (∀ uid req, ws_subscribe_connect uid req .spot
        = .ok ⟨.publicApi .spot, some (build_subscription uid req), false, none⟩) :=
  ⟨fun _ _ _ => rfl, fun _ _ _ => rfl, fun _ _ _ => rfl, fun _ _ _ => rfl,
   fun _ _ => rfl, fun _ _ => rfl, fun _ _ => rfl, fun _ _ => rfl⟩

/-- C5: the facade operations format their topics exactly per the
documented grammar, with the symbol component uppercased; two symbols
agreeing up to case yield the same topic. -/
theorem claim_C5 :
    (∀ subs, (ws_orderbook_subscription subs).args
        = subs.map fun p => "orderbook." ++ toString p.1 ++ "." ++ rustToUppercase p.2)
    ∧ (∀ subs, (ws_trades_subscription subs).args
        = subs.map fun s => "publicTrade." ++ rustToUppercase s)
    ∧ (∀ subs, (ws_tickers_subscription subs).args
        = subs.map fun s => "tickers." ++ rustToUppercase s)
    ∧ (∀ subs, (ws_klines_subscription subs).args
        = subs.map fun p => "kline." ++ p.1 ++ "." ++ rustToUppercase p.2)
    ∧ (∀ n s t, rustToUppercase s = rustToUppercase t →
        orderbookTopic n s = orderbookTopic n t)
    ∧ (∀ s t, rustToUppercase s = rustToUppercase t → tradesTopic s = tradesTopic t)
    ∧ (∀ s t, rustToUppercase s = rustToUppercase t → tickersTopic s = tickersTopic t)
    ∧ (∀ i s t, rustToUppercase s = rustToUppercase t →
        klinesTopic i s = klinesTopic i t) := by
  refine ⟨fun _ => rfl, fun _ => rfl, fun _ => rfl, fun _ => rfl,
    fun n s t hst => ?_, fun s t hst => ?_, fun s t hst => ?_, fun i s t hst => ?_⟩
  all_goals simp [orderbookTopic, tradesTopic, tickersTopic, klinesTopic, hst]

/-- C5 witness: the case-invariance parts applied to the case-variants
"btcusdt" and "BtcUsdt", whose uppercasings agree. -/
theorem claim_C5_witness :
    orderbookTopic 50 "btcusdt" = orderbookTopic 50 "BtcUsdt"
    ∧ tradesTopic "btcusdt" = tradesTopic "BtcUsdt"
    ∧ tickersTopic "btcusdt" = tickersTopic "BtcUsdt"
    ∧ klinesTopic "5" "btcusdt" = klinesTopic "5" "BtcUsdt" :=
  ⟨claim_C5.2.2.2.2.1 50 "btcusdt" "BtcUsdt" (by decide),
   claim_C5.2.2.2.2.2.1 "btcusdt" "BtcUsdt" (by decide),
   claim_C5.2.2.2.2.2.2.1 "btcusdt" "BtcUsdt" (by decide),
   claim_C5.2.2.2.2.2.2.2 "5" "btcusdt" "BtcUsdt" (by decide)⟩

/-- C6: `ws_position` supports Linear (`"position.linear"`), Inverse
(`"position.inverse"`) and the categoryless default (`"position"`), and
returns its configuration error for Spot and Option before connecting;
`ws_executions` and `ws_orders` support all four categories plus the
categoryless default; every private subscription connects to the single
private endpoint. -/
theorem claim_C6 :
    (∀ uid, ws_position_connect uid (some .linear)
        = .ok (ws_priv_subscribe_connect uid ⟨"subscribe", ["position.linear"]⟩))
    ∧ (∀ uid, ws_position_connect uid (some .inverse)
        = .ok (ws_priv_subscribe_connect uid ⟨"subscribe", ["position.inverse"]⟩))
    ∧ (∀ uid, ws_position_connect uid none
        = .ok (ws_priv_subscribe_connect uid ⟨"subscribe", ["position"]⟩))
    ∧ (∀ uid, ws_position_connect uid (some .spot)
        = .error "Option and Spot has not been implemented")
    ∧ (∀ uid, ws_position_connect uid (some .option)
        = .error "Option and Spot has not been implemented")
    ∧ (ws_executions_topic (some .linear) = "execution.linear"
        ∧ ws_executions_topic (some .inverse) = "execution.inverse"
        ∧ ws_executions_topic (some .spot) = "execution.spot"
        ∧ ws_executions_topic (some .option) = "execution.option"
        ∧ ws_executions_topic none = "execution")
    ∧ (ws_orders_topic (some .linear) = "order.linear"
        ∧ ws_orders_topic (some .inverse) = "order.inverse"
        ∧ ws_orders_topic (some .spot) = "order.spot"
        ∧ ws_orders_topic (some .option) = "order.option"
        ∧ ws_orders_topic none = "order")
    ∧ (∀ uid cat, ws_executions_connect uid cat
        = ws_priv_subscribe_connect uid ⟨"subscribe", [ws_executions_topic cat]⟩)
    ∧ (∀ uid cat, ws_orders_connect uid cat
        = ws_priv_subscribe_connect uid ⟨"subscribe", [ws_orders_topic cat]⟩)
    ∧ (∀ uid req, (ws_priv_subscribe_connect uid req).endpoint = .privateApi) :=
  ⟨fun _ => rfl, fun _ => rfl, fun _ => rfl, fun _ => rfl, fun _ => rfl,
   ⟨rfl, rfl, rfl, rfl, rfl⟩, ⟨rfl, rfl, rfl, rfl, rfl⟩,
   fun _ _ => rfl, fun _ _ => rfl, fun _ _ => rfl⟩

/-- C7 counterexample: at the concrete id "AAAAAAAA", `ws_ping` opens its
connection with NO read timeout (`None`, an unbounded read), contradicting
the claim that it uses a bounded read timeout; moreover `ws_priv_subscribe`
opens its connection with the bounded timeout `Some(9)`, contradicting the
claim that the long-running private subscription blocks indefinitely. -/
theorem claim_C7_counterexample :
    (ws_ping_connect "AAAAAAAA" false).readTimeout = none
    ∧ (ws_priv_subscribe_connect "AAAAAAAA" ⟨"subscribe", ["wallet"]⟩).readTimeout = some 9 :=
  ⟨rfl, rfl⟩

/-- C7 (amended): `ws_ping` and `ws_subscribe` open their connections with
no read timeout; `ws_priv_subscribe` opens its connection with a read
timeout of 9. -/
theorem claim_C7 :
    (∀ uid priv, (ws_ping_connect uid priv).readTimeout = none)
    ∧ (∀ uid req, (ws_priv_subscribe_connect uid req).readTimeout = some 9)
    ∧ (∀ uid req cat c, ws_subscribe_connect uid req cat = .ok c →
        c.readTimeout = none) := by
  refine ⟨fun _ _ => rfl, fun _ _ => rfl, fun uid req cat c hc => ?_⟩
  cases cat <;> simp_all [ws_subscribe_connect, ws_subscribe_endpoint, Except.map]
  all_goals simp [← hc]

/-- C7 witness: the `ws_subscribe` part applied to a concrete Linear
subscription. -/
theorem claim_C7_witness :
    (ConnectCall.mk (.publicApi .linear)
      (some (build_subscription "AAAAAAAA" ⟨"subscribe", ["tickers.BTCUSDT"]⟩))
      false none).readTimeout = none :=
  claim_C7.2.2 "AAAAAAAA" ⟨"subscribe", ["tickers.BTCUSDT"]⟩ .linear _ rfl

/-- C8 counterexample: a single text frame that fails to classify as either
pong variant (the external pong parser rejects it) makes `ws_ping` return
that error through the `?` on `serde_json::from_str::<PongResponse>` - it
does NOT complete without error as claimed. -/
theorem claim_C8_counterexample :
    ws_ping_handle (fun _ => .error "unknown variant of PongResponse")
        (.ok (.text "not a pong")) =
      .error "unknown variant of PongResponse" := rfl

/-- C8 (amended): a text frame that fails to parse as a pong makes
`ws_ping` return that decode error (it only completes without error, with
no pong handling, on a NON-text frame); a frame parsing as a public or
private pong yields success printing the connection identifier carried in
the frame. -/
theorem claim_C8 :
    (∀ pf (s e : String), pf s = .error e →
        ws_ping_handle pf (.ok (.text s)) = .error e)
    ∧ (∀ pf, ws_ping_handle pf (.ok .nonText) = .ok [])
    ∧ (∀ pf (s cid : String), pf s = .ok (.publicPong cid) →
        ws_ping_handle pf (.ok (.text s))
          = .ok ["Pong received successfully", "Connection ID: " ++ cid])
    ∧ (∀ pf (s cid : String), pf s = .ok (.privatePong cid) →
        ws_ping_handle pf (.ok (.text s))
          = .ok ["Pong received successfully", "Connection ID: " ++ cid]) := by
  refine ⟨fun pf s e hp => ?_, fun pf => rfl,
    fun pf s cid hp => ?_, fun pf s cid hp => ?_⟩
  all_goals simp [ws_ping_handle, hp]

/-- C8 witness: the three conditional parts applied to concrete parsers
and frames. -/
theorem claim_C8_witness :
    ws_ping_handle (fun _ => .error "bad frame") (.ok (.text "x")) = .error "bad frame"
    ∧ ws_ping_handle (fun _ => .ok (.publicPong "c1")) (.ok (.text "x"))
        = .ok ["Pong received successfully", "Connection ID: " ++ "c1"]
    ∧ ws_ping_handle (fun _ => .ok (.privatePong "c2")) (.ok (.text "x"))
        = .ok ["Pong received successfully", "Connection ID: " ++ "c2"] :=
  ⟨claim_C8.1 (fun _ => .error "bad frame") "x" "bad frame" rfl,
   claim_C8.2.2.1 (fun _ => .ok (.publicPong "c1")) "x" "c1" rfl,
   claim_C8.2.2.2 (fun _ => .ok (.privatePong "c2")) "x" "c2" rfl⟩

/-- C9 counterexample: `ws_orderbook` called with an empty subscription
list passes a `Subscription` with no topics through `build_subscription`,
producing (and sending) an outbound subscribe request whose `args` is the
empty topic list - refuting "every Subscription passed through
build_subscription carries at least one topic string". -/
theorem claim_C9_counterexample :
    ws_orderbook_connect "AAAAAAAA" [] .linear
      = .ok ⟨.publicApi .linear,
             some ⟨"AAAAAAAA", "subscribe", some []⟩,
             false, none⟩ := rfl

/-- C9 (amended): the bare ping request carries no `args` key at all;
`build_subscription` copies the subscription's topics verbatim into the
request, so the request's topics are non-empty exactly when the
subscription's are - but nothing prevents a facade call with an empty subs
list from producing a subscribe request with zero topics. -/
theorem claim_C9 :
    (∀ uid, (pingRequest uid).args = none)
    ∧ (∀ uid action, (build_subscription uid action).args = some action.args)
    ∧ (∀ uid action, action.args ≠ [] →
        (build_subscription uid action).args ≠ some []) := by
  refine ⟨fun _ => rfl, fun _ _ => rfl, fun uid action hne => ?_⟩
  simp [build_subscription, hne]

/-- C9 witness: the non-emptiness part applied to the wallet
subscription. -/
theorem claim_C9_witness :
    (build_subscription "AAAAAAAA" ⟨"subscribe", ["wallet"]⟩).args ≠ some [] :=
  claim_C9.2.2 "AAAAAAAA" ⟨"subscribe", ["wallet"]⟩ (by simp)

/-! ### Concrete capabilities used by the loop witnesses -/

/-- Witness parse capability: the empty string is a decode failure, any
other string parses to itself. -/
def parseFix (s : String) : Except String String :=
  if s = "" then .error "EOF" else .ok s

/-- Witness classifier: every decoded value classifies as a wallet event
carrying the raw text. -/
def classifyFix (v : String) : Option WebsocketEvents :=
  some (.wallet ⟨[v]⟩)

/-- Witness classifier that recognizes no event shape. -/
def classifyNothing (_ : String) : Option WebsocketEvents :=
  none

/-- Witness handler: counts its invocations and always succeeds. -/
def countHandler (n : Nat) (_ : WebsocketEvents) : Except String Nat :=
  .ok (n + 1)

/-- Witness handler: counts its invocations and fails on the 3rd one. -/
def failThird (n : Nat) (_ : WebsocketEvents) : Except String Nat :=
  if n = 2 then .error "handler failed" else .ok (n + 1)

/-- C2: over a sequence of N well-formed text frames - frames that decode
and classify, and that the handler accepts - followed by one malformed
frame, the event loop invokes the handler exactly on those N events in
frame order (`invoked = evs`, with `evs.length = ms.length = N`), then
terminates with the wrapped decode error without an (N+1)-th
invocation. -/
theorem claim_C2 {V σ : Type} (parse : String → Except String V)
    (classify : V → Option WebsocketEvents)
    (h : σ → WebsocketEvents → Except String σ)
    (ms : List String) (evs : List WebsocketEvents) (s s' : σ) (bad e : String)
    (hd : DispatchesTo parse classify ms evs) (hr : RunsOk h s evs s')
    (hbad : parse bad = .error e) :
    event_loop parse classify h (textFrames ms ++ [.ok (.text bad)]) s
      = ⟨evs, ms.length + 1, .streamMsg (.decodeFail e)⟩
    ∧ evs.length = ms.length := by
  have hpre := event_loop_run_prefix parse classify h ms evs s s'
    [.ok (.text bad)] hd hr
  rw [hpre]
  exact ⟨by simp [event_loop, handle_msg, hbad], dispatchesTo_length parse classify hd⟩

/-- C2 witness: two good frames then the malformed empty frame; the
handler is invoked exactly on the two wallet events, then the loop stops
with the decode error. -/
theorem claim_C2_witness :
    event_loop parseFix classifyFix countHandler
        (textFrames ["a", "b"] ++ [.ok (.text "")]) 0
      = ⟨[.wallet ⟨["a"]⟩, .wallet ⟨["b"]⟩], 3, .streamMsg (.decodeFail "EOF")⟩
    ∧ ([WebsocketEvents.wallet ⟨["a"]⟩, .wallet ⟨["b"]⟩]).length
        = (["a", "b"] : List String).length :=
  claim_C2 parseFix classifyFix countHandler ["a", "b"]
    [.wallet ⟨["a"]⟩, .wallet ⟨["b"]⟩] 0 2 "" "EOF"
    ⟨⟨"a", rfl, rfl⟩, ⟨"b", rfl, rfl⟩, trivial⟩ ⟨1, rfl, 2, rfl, rfl⟩ rfl

/-- C3: if the handler accepts the first `evs1.length` dispatched events
and fails on the next one (its k-th invocation, k = `evs1.length + 1`),
the loop invokes the handler exactly on those k events, returns the
handler's failure wrapped in the stream-message context (with the exact
`format!` text of line 318), and consumes exactly k frames no matter what
frames follow - no further frame is read. -/
theorem claim_C3 {V σ : Type} (parse : String → Except String V)
    (classify : V → Option WebsocketEvents)
    (h : σ → WebsocketEvents → Except String σ)
    (ms1 : List String) (evs1 : List WebsocketEvents) (mlast : String)
    (evlast : WebsocketEvents) (s s' : σ) (msg : String)
    (rest : List (Except String WsMessage))
    (hd : DispatchesTo parse classify ms1 evs1)
    (hr : RunsOk h s evs1 s')
    (hk : dispatchesAs parse classify mlast evlast)
    (hfail : h s' evlast = .error msg) :
    event_loop parse classify h (textFrames (ms1 ++ [mlast]) ++ rest) s
      = ⟨evs1 ++ [evlast], ms1.length + 1, .streamMsg (.handlerFail msg)⟩
    ∧ (event_loop parse classify h (textFrames (ms1 ++ [mlast]) ++ rest) s).err.message
      = "Error on handling stream message: " ++ msg := by
  obtain ⟨v, hv, hc⟩ := hk
  have hsplit : textFrames (ms1 ++ [mlast]) ++ rest
      = textFrames ms1 ++ (.ok (.text mlast) :: rest) := by
    simp [textFrames]
  have hpre := event_loop_run_prefix parse classify h ms1 evs1 s s'
    (.ok (.text mlast) :: rest) hd hr
  have hstep : event_loop parse classify h (.ok (.text mlast) :: rest) s'
      = ⟨[evlast], 1, .streamMsg (.handlerFail msg)⟩ := by
    simp [event_loop, handle_msg, hv, hc, hfail]
  have heq : event_loop parse classify h (textFrames (ms1 ++ [mlast]) ++ rest) s
      = ⟨evs1 ++ [evlast], ms1.length + 1, .streamMsg (.handlerFail msg)⟩ := by
    rw [hsplit, hpre, hstep]
  exact ⟨heq, by rw [heq]; rfl⟩

/-- C3 witness: a handler failing on its 3rd invocation dispatches exactly
3 events and consumes exactly 3 frames, even though a 4th frame is
available. -/
theorem claim_C3_witness :
    event_loop parseFix classifyFix failThird
        (textFrames (["a", "b"] ++ ["c"]) ++ [.ok (.text "d")]) 0
      = ⟨[.wallet ⟨["a"]⟩, .wallet ⟨["b"]⟩] ++ [.wallet ⟨["c"]⟩], 3,
         .streamMsg (.handlerFail "handler failed")⟩
    ∧ (event_loop parseFix classifyFix failThird
        (textFrames (["a", "b"] ++ ["c"]) ++ [.ok (.text "d")]) 0).err.message
      = "Error on handling stream message: " ++ "handler failed" :=
  claim_C3 parseFix classifyFix failThird ["a", "b"]
    [.wallet ⟨["a"]⟩, .wallet ⟨["b"]⟩] "c" (.wallet ⟨["c"]⟩) 0 2 "handler failed"
    [.ok (.text "d")]
    ⟨⟨"a", rfl, rfl⟩, ⟨"b", rfl, rfl⟩, trivial⟩ ⟨1, rfl, 2, rfl, rfl⟩
    ⟨"c", rfl, rfl⟩ rfl

/-- C4: `handle_msg` returns success without invoking the handler exactly
when the text decodes but classifies as no event variant (the only
swallowed condition); such a frame leaves the handler state untouched and
the loop continues with the next frame, its outcome unchanged except for
the one consumed frame. -/
theorem claim_C4 {V σ : Type} (parse : String → Except String V)
    (classify : V → Option WebsocketEvents)
    (h : σ → WebsocketEvents → Except String σ) (s : σ) (m : String)
    (rest : List (Except String WsMessage)) :
    ((handle_msg parse classify h s m).toResult = .ok ()
        ∧ (handle_msg parse classify h s m).invokedEvent = none
      ↔ handle_msg parse classify h s m = .skipped s)
    ∧ (handle_msg parse classify h s m = .skipped s
        ↔ ∃ v, parse m = .ok v ∧ classify v = none)
    ∧ (handle_msg parse classify h s m = .skipped s →
        event_loop parse classify h (.ok (.text m) :: rest) s
          = ⟨(event_loop parse classify h rest s).invoked,
             (event_loop parse classify h rest s).consumed + 1,
             (event_loop parse classify h rest s).err⟩) := by
  refine ⟨?_, ?_, fun hsk => ?_⟩
  · cases hp : parse m with
    | error e =>
      simp [handle_msg, hp, HandleResult.toResult, HandleResult.invokedEvent]
    | ok v =>
      cases hc : classify v with
      | none =>
        simp [handle_msg, hp, hc, HandleResult.toResult, HandleResult.invokedEvent]
      | some ev =>
        cases hh : h s ev with
        | error e =>
          simp [handle_msg, hp, hc, hh, HandleResult.toResult,
            HandleResult.invokedEvent]
        | ok s2 =>
          simp [handle_msg, hp, hc, hh, HandleResult.toResult,
            HandleResult.invokedEvent]
  · cases hp : parse m with
    | error e => simp [handle_msg, hp]
    | ok v =>
      cases hc : classify v with
      | none => simp [handle_msg, hp, hc]
      | some ev => cases hh : h s ev <;> simp [handle_msg, hp, hc, hh]
  · simp [event_loop, hsk]

/-- C4 witness: a frame that decodes but classifies as nothing is skipped
and the loop continues. -/
theorem claim_C4_witness :
    event_loop parseFix classifyNothing countHandler
        [Except.ok (WsMessage.text "a"), Except.ok WsMessage.nonText] 0
      = ⟨(event_loop parseFix classifyNothing countHandler
            [Except.ok WsMessage.nonText] 0).invoked,
         (event_loop parseFix classifyNothing countHandler
            [Except.ok WsMessage.nonText] 0).consumed + 1,
         (event_loop parseFix classifyNothing countHandler
            [Except.ok WsMessage.nonText] 0).err⟩ :=
  (claim_C4 parseFix classifyNothing countHandler 0 "a"
    [Except.ok WsMessage.nonText]).2.2 rfl

/-- The eight handlers installed by the facade convenience operations. -/
def facadeHandlers :
    List (List String → WebsocketEvents → Except String (List String)) :=
  [ws_orderbook_handler, ws_trades_handler, ws_tickers_handler,
   ws_klines_handler, ws_position_handler, ws_executions_handler,
   ws_orders_handler, ws_wallet_handler]

theorem facade_handler_ok :
    ∀ h ∈ facadeHandlers, ∀ (out : List String) (ev : WebsocketEvents),
      ∃ out2, h out ev = .ok out2 := by
  intro h hm out ev
  simp only [facadeHandlers, List.mem_cons, List.not_mem_nil, or_false] at hm
  rcases hm with rfl | rfl | rfl | rfl | rfl | rfl | rfl | rfl
  case inr.inr.inl =>
    cases ev with
    | tickerEvent t => obtain ⟨d⟩ := t; cases d <;> exact ⟨_, rfl⟩
    | orderBookEvent e => exact ⟨_, rfl⟩
    | tradeEvent e => exact ⟨_, rfl⟩
    | klineEvent e => exact ⟨_, rfl⟩
    | positionEvent e => exact ⟨_, rfl⟩
    | executionEvent e => exact ⟨_, rfl⟩
    | orderEvent e => exact ⟨_, rfl⟩
    | wallet e => exact ⟨_, rfl⟩
  all_goals cases ev <;> exact ⟨_, rfl⟩

/-- C10: every handler installed by the facade operations returns success
on every event (also on variants other than the one it pattern-matches),
so a loop running any facade handler can never terminate with a wrapped
handler failure - only transport or decode errors remain possible. -/
theorem claim_C10 :
    ∀ h ∈ facadeHandlers,
      (∀ (out : List String) (ev : WebsocketEvents), ∃ out2, h out ev = .ok out2)
      ∧ (∀ (V : Type) (parse : String → Except String V)
          (classify : V → Option WebsocketEvents)
          (frames : List (Except String WsMessage)) (out : List String)
          (msg : String),
          (event_loop parse classify h frames out).err
            ≠ .streamMsg (.handlerFail msg)) := by
  intro h hm
  refine ⟨facade_handler_ok h hm, fun V parse classify frames out msg => ?_⟩
  exact event_loop_no_handlerFail parse classify h
    (facade_handler_ok h hm) frames out msg

/-- C10 witness: the loop consequence applied to the order-book handler on
a concrete frame list. -/
theorem claim_C10_witness :
    (event_loop parseFix classifyFix ws_orderbook_handler
        [Except.ok (WsMessage.text "a")] []).err
      ≠ .streamMsg (.handlerFail "boom") :=
  (claim_C10 ws_orderbook_handler (by simp [facadeHandlers])).2 String
    parseFix classifyFix [Except.ok (WsMessage.text "a")] [] "boom"

end Bybit
